import Mathlib

/-
Shallow embedding of `src/server.js` (an Express server exposing POST /api/ai).

JSON values are modelled by an inductive type `Json`; JavaScript
`undefined` is modelled by `Option Json` being `none`.  Optional chaining
(`a?.b`) is `Option.bind` with field lookup returning `none` on
non-objects, matching JS property access on primitives.  JS truthiness is
`Json.truthy` (`undefined`, `null`, `false`, `0`, `""` are falsy).

The handler body (lines 95-143 of server.js) is `handleAiPost`.  Its
interaction with the outside world is made explicit:
  - the parsed request body is an `Option Json` (absent body = `none`,
    mirroring `req.body || {}`);
  - the outcome of the single upstream `fetch` + `.json()` is an
    `UpstreamResult`: either a transport/JSON-decode error (both throw
    inside the `try`, so both land in the `catch`) or an HTTP status
    together with the parsed JSON body;
  - the environment is read twice in the source: `PORT` and
    `GOOGLE_API_KEY` at module load (lines 51-52), `GOOGLE_MODEL` inside
    the handler on every request (line 109).  `handleAiPost` therefore
    takes the startup environment and the request-time environment as
    separate arguments;
  - whether and where an outbound call is made is recorded in
    `HandlerOutcome.outboundCall` (the URL of line 110, or `none` when the
    handler returns before calling `fetch`).
-/

inductive Json where
  | null
  | bool (b : Bool)
  | num (n : Int)
  | str (s : String)
  | arr (elems : List Json)
  | obj (fields : List (String × Json))

/-- Property access `v?.k`: `none` (JS `undefined`) unless `v` is an
object with field `k`.  Models post-`JSON.parse` objects (no duplicate
keys). -/
def Json.getField : Json → String → Option Json
  | .obj fs, k => (fs.find? (fun p => p.1 == k)).map (fun p => p.2)
  | _, _ => none

/-- Index access `v?.[i]`: array element, or object property named by the
decimal numeral (JS coerces the index to a string for objects). -/
def Json.getIdx : Json → Nat → Option Json
  | .arr xs, i => xs.get? i
  | .obj fs, i => (fs.find? (fun p => p.1 == toString i)).map (fun p => p.2)
  | _, _ => none

/-- JavaScript truthiness of a JSON value. -/
def Json.truthy : Json → Bool
  | .null => false
  | .bool b => b
  | .num n => n != 0
  | .str s => s ≠ ""
  | .arr _ => true
  | .obj _ => true

/-- Truthiness of a possibly-`undefined` value. -/
def optTruthy : Option Json → Bool
  | some v => v.truthy
  | none => false

/-- JS `typeof v === "string"` (for `none`, `typeof undefined` is
`"undefined"`, hence `false`). -/
def optIsString : Option Json → Bool
  | some (.str _) => true
  | _ => false

/-- Process environment: only the variables the server reads.  Each is a
string or absent, as in `process.env`. -/
structure Env where
  PORT : Option String
  GOOGLE_API_KEY : Option String
  GOOGLE_MODEL : Option String

/-- Truthiness of `GOOGLE_API_KEY` as tested by `if (!GOOGLE_API_KEY)` on
line 102: absent and the empty string are both falsy. -/
def envKeyTruthy (e : Env) : Bool :=
  match e.GOOGLE_API_KEY with
  | some s => s ≠ ""
  | none => false

/-- Line 109: `process.env.GOOGLE_MODEL || "gemini-2.5-flash"`, evaluated
inside the handler, i.e. against the request-time environment. -/
def modelName (e : Env) : String :=
  match e.GOOGLE_MODEL with
  | some m => if m ≠ "" then m else "gemini-2.5-flash"
  | none => "gemini-2.5-flash"

/-- Line 110: the upstream endpoint URL built from the model name and the
API key. -/
def requestUrl (e : Env) (apiKey : String) : String :=
  "https://generativelanguage.googleapis.com/v1/models/" ++ modelName e
    ++ ":generateContent?key=" ++ apiKey

/-- System prompt template literal of lines 60-76, verbatim. -/
def systemPrompt : String :=
  "You are an AI Pharmacist for the pharmacy \"New Lucky Pharma\" in India.\n\nYour goals:\n- If the user starts with a simple greeting (e.g., \"Hi\", \"Hello\", \"How are you?\"), reply briefly with a friendly, single-sentence greeting and ask how you can help (e.g., \"Hello! How can I assist you with your health questions today?\").\n- For all other queries (i.e., medical questions, product questions), reply directly and immediately to the user's query. Do not add any extra conversational text.\n- Help customers understand medicines, their uses, and basic health questions.\n- IMPORTANT: Always answer medical/product queries in numbered points (1., 2., 3., etc.), with each point on a separate line.\n- Keep Answer short and clean, aiming for 5 to 10 lines maximum.\n- Keep each point short and clear.\n- Do not write long paragraphs; break information into separate numbered points.\n- You are NOT a doctor. Always end replies with: Please consult a doctor for serious advice.\n\nExample format for medical query:\n1. Medicine name and type\n2. How it is used\n3. When to take it\n4. Important warnings"

/-- Lines 59-88: `buildGeminiBody(query)` returns
`{ contents: [ { parts: [ { text: systemPrompt }, { text: query } ] } ] }`. -/
def buildGeminiBody (query : String) : Json :=
  .obj [("contents",
    .arr [.obj [("parts",
      .arr [.obj [("text", .str systemPrompt)],
            .obj [("text", .str query)]])]])]

/-- Fixed reply of line 99. -/
def invalidQueryText : String := "Missing or invalid query."

/-- Fixed reply of line 104. -/
def notConfiguredText : String :=
  "AI is not configured at the moment. Please call the pharmacy directly. 📞 Please consult a doctor for serious advice."

/-- Fixed reply of line 128. -/
def safetyBlockText : String :=
  "I cannot answer that question due to safety guidelines. Please consult a doctor directly. Please consult a doctor for serious advice."

/-- Fixed reply of line 134. -/
def fallbackText : String :=
  "Sorry, I'm not sure how to answer that safely. You can call or visit the store for help. Please consult a doctor for serious advice."

/-- Fixed reply of line 140. -/
def notRespondingText : String :=
  "AI is currently not responding. Please call the pharmacy directly. 📞 Please consult a doctor for serious advice."

/-- Line 125: `data?.promptFeedback?.blockReason`. -/
def blockReasonField (data : Json) : Option Json :=
  (data.getField "promptFeedback").bind (fun f => f.getField "blockReason")

/-- Line 133: `data?.candidates?.[0]?.content?.parts?.[0]?.text`. -/
def candidateText (data : Json) : Option Json :=
  ((((((data.getField "candidates").bind (fun c => c.getIdx 0)).bind
    (fun c => c.getField "content")).bind
    (fun c => c.getField "parts")).bind
    (fun p => p.getIdx 0)).bind
    (fun p => p.getField "text"))

/-- Lines 125-136: interpretation of the parsed upstream body.  The
safety branch fires on a truthy `blockReason`; otherwise the chained
candidate text is used when truthy, with `||` supplying `fallbackText`
when the chain is `undefined` or falsy. -/
def interpretResponse (data : Json) : Json :=
  if optTruthy (blockReasonField data) then .str safetyBlockText
  else
    match candidateText data with
    | some v => if v.truthy then v else .str fallbackText
    | none => .str fallbackText

/-- Outcome of the single `await fetch(...)` followed by
`await apiResponse.json()`: a thrown transport or JSON-decode error
(caught on line 137), or an HTTP status with the parsed body. -/
inductive UpstreamResult where
  | transportError (message : String)
  | response (httpStatus : Nat) (body : Json)

/-- Observable outcome of one request to POST /api/ai: the HTTP status
set on the response, the `reply` field of the JSON body, and the URL of
the outbound upstream call when one was issued. -/
structure HandlerOutcome where
  status : Nat
  reply : Json
  outboundCall : Option String

/-- Lines 95-143: the POST /api/ai handler.  `startupEnv` is the
environment at module load (supplying `GOOGLE_API_KEY`, line 52);
`reqEnv` is the environment when the request is handled (supplying
`GOOGLE_MODEL`, line 109); `reqBody` is the parsed request body
(`req.body`, `none` when absent); `upstream` is the outcome of the
outbound call, consumed only if the handler reaches it. -/
def handleAiPost (startupEnv reqEnv : Env) (reqBody : Option Json)
    (upstream : UpstreamResult) : HandlerOutcome :=
  let query : Option Json := reqBody.bind (fun b => b.getField "query")
  if !optTruthy query || !optIsString query then
    { status := 400, reply := .str invalidQueryText, outboundCall := none }
  else if !envKeyTruthy startupEnv then
    { status := 500, reply := .str notConfiguredText, outboundCall := none }
  else
    let url := requestUrl reqEnv (startupEnv.GOOGLE_API_KEY.getD "")
    match upstream with
    | .transportError _ =>
      { status := 500, reply := .str notRespondingText, outboundCall := some url }
    | .response _ data =>
      { status := 200, reply := interpretResponse data, outboundCall := some url }

/-- Fixture: an environment with a configured API key. -/
def envWithKey : Env := { PORT := none, GOOGLE_API_KEY := some "test-key", GOOGLE_MODEL := none }

/-- Fixture: an environment with no API key configured. -/
def envNoKey : Env := { PORT := none, GOOGLE_API_KEY := none, GOOGLE_MODEL := none }

/-- Fixture: a request body with a valid non-empty query string. -/
def validBody : Json := .obj [("query", .str "What is paracetamol?")]

/-- Fixture builder: an upstream body whose only content is
`candidates[0].content.parts[0].text = v`. -/
def candidatesWith (v : Json) : Json :=
  .obj [("candidates", .arr [.obj [("content", .obj [("parts", .arr [.obj [("text", v)]])])]])]

/-- Fixture: upstream body with a truthy safety block AND candidate text. -/
def blockedWithTextData : Json :=
  .obj [("promptFeedback", .obj [("blockReason", .str "SAFETY")]),
        ("candidates", .arr [.obj [("content",
          .obj [("parts", .arr [.obj [("text", .str "partial answer")]])])]])]

/-- Fixture: startup environment with the default model configured. -/
def envModelA : Env :=
  { PORT := none, GOOGLE_API_KEY := some "test-key", GOOGLE_MODEL := some "gemini-2.5-flash" }

/-- Fixture: the same environment after GOOGLE_MODEL was changed. -/
def envModelB : Env :=
  { PORT := none, GOOGLE_API_KEY := some "test-key", GOOGLE_MODEL := some "gemini-2.0-pro" }

/-- Helper: a non-empty string query passes the validation guard of line 98. -/
lemma queryGuard_false (q : String) (hqne : q ≠ "") :
    (!optTruthy (some (Json.str q)) || !optIsString (some (Json.str q))) = false := by
  simp [optTruthy, optIsString, Json.truthy, hqne]

/-- Helper: with a valid query and a configured key, the handler reaches the
upstream call and maps its parsed body through `interpretResponse` at
status 200. -/
lemma handleAiPost_success (startupEnv reqEnv : Env) (reqBody : Option Json)
    (q k : String) (st : Nat) (data : Json)
    (hq : reqBody.bind (fun b => b.getField "query") = some (.str q))
    (hqne : q ≠ "")
    (hk : startupEnv.GOOGLE_API_KEY = some k) (hkne : k ≠ "") :
    handleAiPost startupEnv reqEnv reqBody (.response st data) =
      { status := 200, reply := interpretResponse data,
        outboundCall := some (requestUrl reqEnv k) } := by
  unfold handleAiPost
  rw [hq]
  simp [queryGuard_false q hqne, envKeyTruthy, hk, hkne]

/-- Helper: with a valid query and a configured key, a thrown upstream error
lands in the catch block of line 137. -/
lemma handleAiPost_transport (startupEnv reqEnv : Env) (reqBody : Option Json)
    (q k msg : String)
    (hq : reqBody.bind (fun b => b.getField "query") = some (.str q))
    (hqne : q ≠ "")
    (hk : startupEnv.GOOGLE_API_KEY = some k) (hkne : k ≠ "") :
    handleAiPost startupEnv reqEnv reqBody (.transportError msg) =
      { status := 500, reply := .str notRespondingText,
        outboundCall := some (requestUrl reqEnv k) } := by
  unfold handleAiPost
  rw [hq]
  simp [queryGuard_false q hqne, envKeyTruthy, hk, hkne]

/-- Helper: a truthy block reason selects the safety reply. -/
lemma interpretResponse_blocked (data : Json)
    (hbr : optTruthy (blockReasonField data) = true) :
    interpretResponse data = .str safetyBlockText := by
  unfold interpretResponse
  simp [hbr]

/-- Helper: with no block reason and a non-empty candidate text, the text is
returned verbatim. -/
lemma interpretResponse_text (data : Json) (t : String)
    (hbr : blockReasonField data = none)
    (ht : candidateText data = some (.str t)) (htne : t ≠ "") :
    interpretResponse data = .str t := by
  unfold interpretResponse
  simp [hbr, ht, optTruthy, Json.truthy, htne]

/-- Helper: with no block reason and no candidate text, the fallback is used. -/
lemma interpretResponse_fallback (data : Json)
    (hbr : blockReasonField data = none)
    (ht : candidateText data = none) :
    interpretResponse data = .str fallbackText := by
  unfold interpretResponse
  simp [hbr, ht, optTruthy]

/-- Helper: with no block reason and an empty-string candidate text, the
fallback is used (the `||` of line 133 discards falsy text). -/
lemma interpretResponse_emptyText (data : Json)
    (hbr : blockReasonField data = none)
    (ht : candidateText data = some (.str "")) :
    interpretResponse data = .str fallbackText := by
  unfold interpretResponse
  simp [hbr, ht, optTruthy, Json.truthy]

/-- Helper: the interpreted reply is never the empty string. -/
lemma interpretResponse_ne_emptyStr (data : Json) :
    interpretResponse data ≠ .str "" := by
  unfold interpretResponse
  split
  · intro h; injection h with h3; exact absurd h3 (by decide)
  · split
    · split
      · rename_i hv
        intro h
        subst h
        simp [Json.truthy] at hv
      · intro h; injection h with h3; exact absurd h3 (by decide)
    · intro h; injection h with h3; exact absurd h3 (by decide)

/-- C1 as stated is refuted when the text field is present but empty: the
block-reason field is absent, the candidate text is present and equals `""`,
yet the reply is not that text. -/
theorem C1_counterexample :
    blockReasonField (candidatesWith (.str "")) = none ∧
    candidateText (candidatesWith (.str "")) = some (.str "") ∧
    (handleAiPost envWithKey envWithKey (some validBody)
      (.response 200 (candidatesWith (.str "")))).status = 200 ∧
    (handleAiPost envWithKey envWithKey (some validBody)
      (.response 200 (candidatesWith (.str "")))).reply ≠ .str "" := by
  refine ⟨rfl, rfl, rfl, fun h => ?_⟩
  have h2 : Json.str fallbackText = Json.str "" := h
  injection h2 with h3
  exact absurd h3 (by decide)

/-- C1 (amended): for a valid configured request, an upstream body with no
safety-block field and a NON-EMPTY candidate text yields status 200 with
that text verbatim. -/
theorem C1_text_returned_verbatim (startupEnv reqEnv : Env) (reqBody : Option Json)
    (q k t : String) (st : Nat) (data : Json)
    (hq : reqBody.bind (fun b => b.getField "query") = some (.str q))
    (hqne : q ≠ "")
    (hk : startupEnv.GOOGLE_API_KEY = some k) (hkne : k ≠ "")
    (hbr : blockReasonField data = none)
    (ht : candidateText data = some (.str t)) (htne : t ≠ "") :
    (handleAiPost startupEnv reqEnv reqBody (.response st data)).status = 200 ∧
    (handleAiPost startupEnv reqEnv reqBody (.response st data)).reply = .str t := by
  rw [handleAiPost_success startupEnv reqEnv reqBody q k st data hq hqne hk hkne]
  exact ⟨rfl, interpretResponse_text data t hbr ht htne⟩

/-- C1 witness at the spec example text. -/
theorem C1_witness :
    (handleAiPost envWithKey envWithKey (some validBody)
      (.response 200 (candidatesWith (.str "1. Take with water")))).status = 200 ∧
    (handleAiPost envWithKey envWithKey (some validBody)
      (.response 200 (candidatesWith (.str "1. Take with water")))).reply
      = .str "1. Take with water" :=
  C1_text_returned_verbatim envWithKey envWithKey (some validBody)
    "What is paracetamol?" "test-key" "1. Take with water" 200
    (candidatesWith (.str "1. Take with water"))
    rfl (by decide) rfl (by decide) rfl rfl (by decide)

/-- C2 as stated is refuted when `promptFeedback.blockReason` is present but
falsy (the empty string): the handler skips the safety branch and does not
return the safety-refusal text. -/
theorem C2_counterexample :
    blockReasonField (.obj [("promptFeedback", .obj [("blockReason", .str "")])])
      = some (.str "") ∧
    (handleAiPost envWithKey envWithKey (some validBody)
      (.response 200 (.obj [("promptFeedback", .obj [("blockReason", .str "")])]))).status = 200 ∧
    (handleAiPost envWithKey envWithKey (some validBody)
      (.response 200 (.obj [("promptFeedback", .obj [("blockReason", .str "")])]))).reply
      ≠ .str safetyBlockText := by
  refine ⟨rfl, rfl, fun h => ?_⟩
  have h2 : Json.str fallbackText = Json.str safetyBlockText := h
  injection h2 with h3
  exact absurd h3 (by decide)

/-- C2 (amended): for a valid configured request, an upstream body whose
`promptFeedback.blockReason` is present with a truthy value yields status
200 with the fixed safety-refusal text, regardless of any candidate text. -/
theorem C2_safety_block_priority (startupEnv reqEnv : Env) (reqBody : Option Json)
    (q k : String) (st : Nat) (data : Json)
    (hq : reqBody.bind (fun b => b.getField "query") = some (.str q))
    (hqne : q ≠ "")
    (hk : startupEnv.GOOGLE_API_KEY = some k) (hkne : k ≠ "")
    (hbr : optTruthy (blockReasonField data) = true) :
    (handleAiPost startupEnv reqEnv reqBody (.response st data)).status = 200 ∧
    (handleAiPost startupEnv reqEnv reqBody (.response st data)).reply
      = .str safetyBlockText := by
  rw [handleAiPost_success startupEnv reqEnv reqBody q k st data hq hqne hk hkne]
  exact ⟨rfl, interpretResponse_blocked data hbr⟩

/-- C2 witness: the safety reply wins even with candidate text present. -/
theorem C2_witness :
    (handleAiPost envWithKey envWithKey (some validBody)
      (.response 200 blockedWithTextData)).status = 200 ∧
    (handleAiPost envWithKey envWithKey (some validBody)
      (.response 200 blockedWithTextData)).reply = .str safetyBlockText :=
  C2_safety_block_priority envWithKey envWithKey (some validBody)
    "What is paracetamol?" "test-key" 200 blockedWithTextData
    rfl (by decide) rfl (by decide) rfl

/-- C3: for a valid configured request, an upstream body with no safety-block
field and no candidate text at the expected path yields status 200 with the
fixed fallback reply. -/
theorem C3_fallback_reply (startupEnv reqEnv : Env) (reqBody : Option Json)
    (q k : String) (st : Nat) (data : Json)
    (hq : reqBody.bind (fun b => b.getField "query") = some (.str q))
    (hqne : q ≠ "")
    (hk : startupEnv.GOOGLE_API_KEY = some k) (hkne : k ≠ "")
    (hbr : blockReasonField data = none)
    (ht : candidateText data = none) :
    (handleAiPost startupEnv reqEnv reqBody (.response st data)).status = 200 ∧
    (handleAiPost startupEnv reqEnv reqBody (.response st data)).reply
      = .str fallbackText := by
  rw [handleAiPost_success startupEnv reqEnv reqBody q k st data hq hqne hk hkne]
  exact ⟨rfl, interpretResponse_fallback data hbr ht⟩

/-- C3 witness: upstream body with no candidates field at all. -/
theorem C3_witness :
    (handleAiPost envWithKey envWithKey (some validBody)
      (.response 200 (.obj []))).status = 200 ∧
    (handleAiPost envWithKey envWithKey (some validBody)
      (.response 200 (.obj []))).reply = .str fallbackText :=
  C3_fallback_reply envWithKey envWithKey (some validBody)
    "What is paracetamol?" "test-key" 200 (.obj [])
    rfl (by decide) rfl (by decide) rfl rfl

/-- C4: a missing query field, a non-string query, or an empty-string query
(including an absent request body, which yields a missing field) is rejected
with exactly 400 and the fixed reply, and no outbound call is made.  The
handler is a total function, so it cannot throw. -/
theorem C4_invalid_query_rejected (startupEnv reqEnv : Env) (reqBody : Option Json)
    (upstream : UpstreamResult)
    (h : reqBody.bind (fun b => b.getField "query") = none ∨
         (∀ s : String, reqBody.bind (fun b => b.getField "query") ≠ some (.str s)) ∨
         reqBody.bind (fun b => b.getField "query") = some (.str "")) :
    handleAiPost startupEnv reqEnv reqBody upstream =
      { status := 400, reply := .str invalidQueryText, outboundCall := none } := by
  have hguard : (!optTruthy (reqBody.bind (fun b => b.getField "query")) ||
      !optIsString (reqBody.bind (fun b => b.getField "query"))) = true := by
    rcases h with h | h | h
    · simp [h, optTruthy]
    · cases hq : reqBody.bind (fun b => b.getField "query") with
      | none => simp [optTruthy]
      | some v =>
        cases v with
        | str s => exact absurd hq (h s)
        | null => simp [optIsString]
        | bool b => simp [optIsString]
        | num n => simp [optIsString]
        | arr elems => simp [optIsString]
        | obj fields => simp [optIsString]
    · simp [h, optTruthy, Json.truthy]
  unfold handleAiPost
  simp [hguard]

/-- C4 witness: absent request body. -/
theorem C4_witness :
    handleAiPost envWithKey envWithKey none (.response 200 (.obj [])) =
      { status := 400, reply := .str invalidQueryText, outboundCall := none } :=
  C4_invalid_query_rejected envWithKey envWithKey none (.response 200 (.obj []))
    (Or.inl rfl)

/-- C5: with no API key in the startup environment, every valid request gets
exactly 500 with the fixed not-configured reply and no outbound call,
regardless of the query content and of anything upstream. -/
theorem C5_not_configured (startupEnv reqEnv : Env) (reqBody : Option Json)
    (upstream : UpstreamResult) (q : String)
    (hq : reqBody.bind (fun b => b.getField "query") = some (.str q))
    (hqne : q ≠ "")
    (hk : startupEnv.GOOGLE_API_KEY = none) :
    handleAiPost startupEnv reqEnv reqBody upstream =
      { status := 500, reply := .str notConfiguredText, outboundCall := none } := by
  unfold handleAiPost
  rw [hq]
  simp [queryGuard_false q hqne, envKeyTruthy, hk]

/-- C5 witness. -/
theorem C5_witness :
    handleAiPost envNoKey envNoKey (some validBody) (.response 200 (.obj [])) =
      { status := 500, reply := .str notConfiguredText, outboundCall := none } :=
  C5_not_configured envNoKey envNoKey (some validBody) (.response 200 (.obj []))
    "What is paracetamol?" rfl (by decide) rfl

/-- C6: with a valid query and a configured key, a transport or JSON-decode
error from the upstream call yields exactly 500 with the fixed
not-responding reply, and the outcome does not depend on the error value
(so the error never appears in the response body). -/
theorem C6_transport_error_opaque (startupEnv reqEnv : Env) (reqBody : Option Json)
    (q k msg : String)
    (hq : reqBody.bind (fun b => b.getField "query") = some (.str q))
    (hqne : q ≠ "")
    (hk : startupEnv.GOOGLE_API_KEY = some k) (hkne : k ≠ "") :
    (handleAiPost startupEnv reqEnv reqBody (.transportError msg)).status = 500 ∧
    (handleAiPost startupEnv reqEnv reqBody (.transportError msg)).reply
      = .str notRespondingText ∧
    ∀ msg' : String,
      handleAiPost startupEnv reqEnv reqBody (.transportError msg)
        = handleAiPost startupEnv reqEnv reqBody (.transportError msg') := by
  have h1 := handleAiPost_transport startupEnv reqEnv reqBody q k msg hq hqne hk hkne
  refine ⟨by rw [h1], by rw [h1], fun msg' => ?_⟩
  rw [h1, handleAiPost_transport startupEnv reqEnv reqBody q k msg' hq hqne hk hkne]

/-- C6 witness at a concrete transport error. -/
theorem C6_witness :
    (handleAiPost envWithKey envWithKey (some validBody)
      (.transportError "ECONNREFUSED")).status = 500 ∧
    (handleAiPost envWithKey envWithKey (some validBody)
      (.transportError "ECONNREFUSED")).reply = .str notRespondingText := by
  have h := C6_transport_error_opaque envWithKey envWithKey (some validBody)
    "What is paracetamol?" "test-key" "ECONNREFUSED" rfl (by decide) rfl (by decide)
  exact ⟨h.1, h.2.1⟩

/-- C7: a non-2xx upstream HTTP status with a JSON body does not take the 500
path: the outcome is identical to the 200-status case, with status 200 and
the reply produced by the same interpretation precedence. -/
theorem C7_status_ignored (startupEnv reqEnv : Env) (reqBody : Option Json)
    (q k : String) (st : Nat) (data : Json)
    (hq : reqBody.bind (fun b => b.getField "query") = some (.str q))
    (hqne : q ≠ "")
    (hk : startupEnv.GOOGLE_API_KEY = some k) (hkne : k ≠ "") :
    (handleAiPost startupEnv reqEnv reqBody (.response st data)).status = 200 ∧
    (handleAiPost startupEnv reqEnv reqBody (.response st data)).reply
      = interpretResponse data ∧
    handleAiPost startupEnv reqEnv reqBody (.response st data)
      = handleAiPost startupEnv reqEnv reqBody (.response 200 data) := by
  have h1 := handleAiPost_success startupEnv reqEnv reqBody q k st data hq hqne hk hkne
  have h2 := handleAiPost_success startupEnv reqEnv reqBody q k 200 data hq hqne hk hkne
  exact ⟨by rw [h1], by rw [h1], by rw [h1, h2]⟩

/-- C7 witness at upstream HTTP status 404. -/
theorem C7_witness :
    (handleAiPost envWithKey envWithKey (some validBody)
      (.response 404 (candidatesWith (.str "1. Take with water")))).status = 200 ∧
    (handleAiPost envWithKey envWithKey (some validBody)
      (.response 404 (candidatesWith (.str "1. Take with water")))).reply
      = interpretResponse (candidatesWith (.str "1. Take with water")) := by
  have h := C7_status_ignored envWithKey envWithKey (some validBody)
    "What is paracetamol?" "test-key" 404 (candidatesWith (.str "1. Take with water"))
    rfl (by decide) rfl (by decide)
  exact ⟨h.1, h.2.1⟩

/-- C8 as stated is refuted: GOOGLE_MODEL is read inside the handler (line
109), so changing it after startup changes the handler's behaviour (the
outbound URL), even though PORT and GOOGLE_API_KEY are unchanged. -/
theorem C8_counterexample :
    envModelA.GOOGLE_API_KEY = envModelB.GOOGLE_API_KEY ∧
    envModelA.PORT = envModelB.PORT ∧
    handleAiPost envModelA envModelB (some validBody) (.response 200 (.obj []))
      ≠ handleAiPost envModelA envModelA (some validBody) (.response 200 (.obj [])) := by
  refine ⟨rfl, rfl, fun h => ?_⟩
  have h2 := congrArg HandlerOutcome.outboundCall h
  have h3 : some (requestUrl envModelB "test-key")
      = some (requestUrl envModelA "test-key") := h2
  injection h3 with h4
  exact absurd h4 (by decide)

/-- C8 (amended): the client-visible outcome — status, reply, and whether an
outbound call is made — does not depend on the request-time environment;
only the outbound URL (through GOOGLE_MODEL, read per request) does. -/
theorem C8_client_outcome_startup_only (startupEnv reqEnv reqEnv' : Env)
    (reqBody : Option Json) (upstream : UpstreamResult) :
    (handleAiPost startupEnv reqEnv reqBody upstream).status
      = (handleAiPost startupEnv reqEnv' reqBody upstream).status ∧
    (handleAiPost startupEnv reqEnv reqBody upstream).reply
      = (handleAiPost startupEnv reqEnv' reqBody upstream).reply ∧
    (handleAiPost startupEnv reqEnv reqBody upstream).outboundCall.isSome
      = (handleAiPost startupEnv reqEnv' reqBody upstream).outboundCall.isSome := by
  unfold handleAiPost
  by_cases hg : (!optTruthy (reqBody.bind fun b => b.getField "query") ||
      !optIsString (reqBody.bind fun b => b.getField "query")) = true
  · simp [hg]
  · by_cases hk : (!envKeyTruthy startupEnv) = true
    · simp [hg, hk]
    · cases upstream <;> simp [hg, hk]

/-- C9: the Prompt Builder returns exactly the payload with the fixed system
instruction first and the unmutated query second; as a Lean function it is
deterministic and side-effect free. -/
theorem C9_buildGeminiBody_shape (q : String) :
    buildGeminiBody q =
      .obj [("contents", .arr [.obj [("parts",
        .arr [.obj [("text", .str systemPrompt)], .obj [("text", .str q)]])]])] ∧
    ((((buildGeminiBody q).getField "contents").bind (fun c => c.getIdx 0)).bind
        (fun c => c.getField "parts"))
      = some (.arr [.obj [("text", .str systemPrompt)], .obj [("text", .str q)]]) :=
  ⟨rfl, rfl⟩

/-- C10: with no safety block and a present-but-empty candidate text, the
handler responds 200 with the fixed fallback reply, not the empty string;
and on the 200 path the reply is never the empty string for any body. -/
theorem C10_reply_never_empty (startupEnv reqEnv : Env) (reqBody : Option Json)
    (q k : String) (st : Nat) (data : Json)
    (hq : reqBody.bind (fun b => b.getField "query") = some (.str q))
    (hqne : q ≠ "")
    (hk : startupEnv.GOOGLE_API_KEY = some k) (hkne : k ≠ "")
    (hbr : blockReasonField data = none)
    (ht : candidateText data = some (.str "")) :
    (handleAiPost startupEnv reqEnv reqBody (.response st data)).status = 200 ∧
    (handleAiPost startupEnv reqEnv reqBody (.response st data)).reply
      = .str fallbackText ∧
    ∀ data' : Json,
      (handleAiPost startupEnv reqEnv reqBody (.response st data')).reply ≠ .str "" := by
  refine ⟨?_, ?_, fun d => ?_⟩
  · rw [handleAiPost_success startupEnv reqEnv reqBody q k st data hq hqne hk hkne]
  · rw [handleAiPost_success startupEnv reqEnv reqBody q k st data hq hqne hk hkne]
    exact interpretResponse_emptyText data hbr ht
  · rw [handleAiPost_success startupEnv reqEnv reqBody q k st d hq hqne hk hkne]
    exact interpretResponse_ne_emptyStr d

/-- C10 witness at the empty-text body. -/
theorem C10_witness :
    (handleAiPost envWithKey envWithKey (some validBody)
      (.response 200 (candidatesWith (.str "")))).status = 200 ∧
    (handleAiPost envWithKey envWithKey (some validBody)
      (.response 200 (candidatesWith (.str "")))).reply = .str fallbackText ∧
    (handleAiPost envWithKey envWithKey (some validBody)
      (.response 200 (candidatesWith (.str "")))).reply ≠ .str "" := by
  have h := C10_reply_never_empty envWithKey envWithKey (some validBody)
    "What is paracetamol?" "test-key" 200 (candidatesWith (.str ""))
    rfl (by decide) rfl (by decide) rfl rfl
  exact ⟨h.1, h.2.1, h.2.2 (candidatesWith (.str ""))⟩
